import Mathlib

/-
Shallow embedding of the collision avoidance system in `src/app.py`.

Numbers are modelled as rationals.  Python's `float('inf')` sentinel for
the time-to-collision is modelled by the inductive type `TtcVal`.
Python's built-in `round(x, n)` rounds half to even; `rhe` and `roundTo`
model that exactly on rationals.  The calls to `random.uniform` and
`random.random` are modelled by explicit draw parameters, constrained by
the ranges those library functions guarantee.  The dictionary access
`avoidance_data["ttc"]`, which raises `KeyError` when the key is absent,
is modelled by an `Option`-valued result.
-/

namespace CollisionAvoidance

/-- Python's nearest-integer rounding: round half to even (banker's
rounding), on rationals. -/
def rhe (q : ℚ) : ℤ :=
  if q - ⌊q⌋ < 1/2 then ⌊q⌋
  else if 1/2 < q - ⌊q⌋ then ⌊q⌋ + 1
  else if ⌊q⌋ % 2 = 0 then ⌊q⌋ else ⌊q⌋ + 1

/-- Python's `round(q, n)`: round to `n` decimal digits, half to even. -/
def roundTo (n : ℕ) (q : ℚ) : ℚ := (rhe (q * 10 ^ n) : ℚ) / 10 ^ n

/-- A Python float holding either a finite value or `float('inf')`, as
used for the time-to-collision. -/
inductive TtcVal
  | inf
  | fin (q : ℚ)
deriving DecidableEq, Repr

/-- Float comparison `c < t` where `t` may be `inf` (then true). -/
def TtcVal.gtB : TtcVal → ℚ → Bool
  | .inf, _ => true
  | .fin q, c => decide (c < q)

/-- Float comparison `t <= c` where `t` may be `inf` (then false). -/
def TtcVal.leB : TtcVal → ℚ → Bool
  | .inf, _ => false
  | .fin q, c => decide (q ≤ c)

/-- Python's `round(t, 2)` on the ttc float (`round(inf, 2) = inf`). -/
def TtcVal.round2 : TtcVal → TtcVal
  | .inf => .inf
  | .fin q => .fin (roundTo 2 q)

/-- `self.critical_ttc_threshold = 10` (seconds). -/
def critical_ttc_threshold : ℚ := 10

/-- `self.trigger_distance = 500` (meters, unused by the computations). -/
def trigger_distance : ℚ := 500

/-- A vehicle state dict: `{"speed": ..., "position": ...}`. -/
structure Car where
  speed : ℚ
  position : ℚ
deriving DecidableEq, Repr

/-- `calculate_ttc(self, distance, speed_a, speed_b)`. -/
def calculate_ttc (distance speed_a speed_b : ℚ) : TtcVal :=
  if speed_a + speed_b ≤ 0 then TtcVal.inf
  else TtcVal.fin (distance / (speed_a + speed_b))

/-- The advice dict returned by `calculate_avoidance_maneuver`: the safe
branch populates `advice`, the imminent branch populates `ttc`,
`maneuvers` and `safe_maneuver_applied`; absent keys are `none`. -/
structure Advice where
  status : String
  alert_level : String
  advice : Option String
  ttc : Option TtcVal
  maneuvers : Option (List String)
  safe_maneuver_applied : Option Bool
deriving DecidableEq, Repr

/-- `calculate_avoidance_maneuver(self, car_a, car_b, ttc)`. -/
def calculate_avoidance_maneuver (car_a car_b : Car) (ttc : TtcVal) : Advice :=
  if TtcVal.gtB ttc critical_ttc_threshold then
    { status := "safe"
      alert_level := "none"
      advice := some "Maintain safe distance"
      ttc := none
      maneuvers := none
      safe_maneuver_applied := none }
  else
    let alert_level : String := if TtcVal.leB ttc 5 then "critical" else "warning"
    let maneuvers : List String :=
      ["Both vehicles reduce speed immediately"] ++
      (if car_a.speed ≥ car_b.speed then
        ["Vehicle A: Steer right onto shoulder",
         "Vehicle B: Maintain course, prepare to brake"]
      else
        ["Vehicle B: Steer left onto shoulder",
         "Vehicle A: Maintain course, prepare to brake"])
    { status := "collision_imminent"
      alert_level := alert_level
      advice := none
      ttc := some (TtcVal.round2 ttc)
      maneuvers := some maneuvers
      safe_maneuver_applied := some true }

/-- The simulation result dict. -/
structure SimResult where
  collision_avoided : Bool
  min_distance : ℚ
  outcome : String
deriving DecidableEq, Repr

/-- `min(0.95, 0.7 + ttc / 20)` on the ttc float; for `inf` the float
arithmetic gives `min(0.95, inf) = 0.95`. -/
def successProbability : TtcVal → ℚ
  | .inf => 95/100
  | .fin q => min (95/100) (7/10 + q / 20)

/-- `simulate_avoidance(self, car_a, car_b, avoidance_data)`.  The draws
`u_safe` (from `random.uniform(50, 100)`), `r` (from `random.random()`)
and `u_close` (from `random.uniform(5, 20)`) are explicit parameters.
`none` models the `KeyError` raised by `avoidance_data["ttc"]` when the
status is not "safe" and the key is absent. -/
def simulate_avoidance (car_a car_b : Car) (avoidance_data : Advice)
    (u_safe r u_close : ℚ) : Option SimResult :=
  if avoidance_data.status = "safe" then
    some { collision_avoided := true
           min_distance := u_safe
           outcome := "Safe passage" }
  else
    match avoidance_data.ttc with
    | none => none
    | some t =>
      let success_probability := successProbability t
      let collision_avoided := decide (r < success_probability)
      if collision_avoided then
        some { collision_avoided := true
               min_distance := u_close
               outcome := "Close call - collision avoided" }
      else
        some { collision_avoided := false
               min_distance := 0
               outcome := "COLLISION OCCURRED" }

/-- `distance = abs(car_b["position"] - car_a["position"])` in the
`/api/calculate-collision` endpoint. -/
def calculate_collision_distance (car_a car_b : Car) : ℚ :=
  |car_b.position - car_a.position|

/-- The JSON body returned by `/api/generate-random-scenario`. -/
structure Scenario where
  speed_a : ℚ
  speed_b : ℚ
  speed_a_ms : ℚ
  speed_b_ms : ℚ
deriving DecidableEq, Repr

/-- `generate_random_scenario()`, with the two `random.uniform(60, 120)`
draws as explicit parameters `u_a`, `u_b`; `3.6 = 18/5`. -/
def generate_random_scenario (u_a u_b : ℚ) : Scenario :=
  let speed_a := u_a
  let speed_b := u_b
  let speed_a_ms := speed_a / (18/5)
  let speed_b_ms := speed_b / (18/5)
  { speed_a := roundTo 1 speed_a
    speed_b := roundTo 1 speed_b
    speed_a_ms := roundTo 1 speed_a_ms
    speed_b_ms := roundTo 1 speed_b_ms }

/-! ### Rounding lemmas -/

theorem rhe_le (q : ℚ) : (rhe q : ℚ) ≤ q + 1/2 := by
  have hfl : (⌊q⌋ : ℚ) ≤ q := Int.floor_le q
  have hfl2 : q < ⌊q⌋ + 1 := Int.lt_floor_add_one q
  unfold rhe
  split_ifs with h1 h2 h3 <;> push_cast <;> linarith

theorem le_rhe (q : ℚ) : q - 1/2 ≤ (rhe q : ℚ) := by
  have hfl : (⌊q⌋ : ℚ) ≤ q := Int.floor_le q
  have hfl2 : q < ⌊q⌋ + 1 := Int.lt_floor_add_one q
  unfold rhe
  split_ifs with h1 h2 h3 <;> push_cast <;> linarith

theorem le_roundTo_one {k : ℤ} {u : ℚ} (h : (k : ℚ) ≤ u) : (k : ℚ) ≤ roundTo 1 u := by
  unfold roundTo
  set m := rhe (u * 10 ^ 1) with hm
  have h1 : u * 10 ^ 1 - 1 / 2 ≤ (m : ℚ) := le_rhe _
  have h2 : (10 * k - 1 : ℤ) < m := by
    have h2q : ((10 * k - 1 : ℤ) : ℚ) < (m : ℚ) := by push_cast; nlinarith
    exact_mod_cast h2q
  have h4 : 10 * (k : ℚ) ≤ (m : ℚ) := by
    have h3 : (10 * k : ℤ) ≤ m := by omega
    exact_mod_cast h3
  rw [le_div_iff₀ (by norm_num)]
  nlinarith

theorem roundTo_one_le {k : ℤ} {u : ℚ} (h : u ≤ (k : ℚ)) : roundTo 1 u ≤ (k : ℚ) := by
  unfold roundTo
  set m := rhe (u * 10 ^ 1) with hm
  have h1 : (m : ℚ) ≤ u * 10 ^ 1 + 1 / 2 := rhe_le _
  have h2 : m < (10 * k + 1 : ℤ) := by
    have h2q : (m : ℚ) < ((10 * k + 1 : ℤ) : ℚ) := by push_cast; nlinarith
    exact_mod_cast h2q
  have h4 : (m : ℚ) ≤ 10 * (k : ℚ) := by
    have h3 : m ≤ (10 * k : ℤ) := by omega
    exact_mod_cast h3
  rw [div_le_iff₀ (by norm_num)]
  nlinarith

/-! ### Claim theorems -/

/-- C1: for every distance and speeds, `calculate_ttc` returns the
infinity sentinel when `speed_a + speed_b <= 0`, and otherwise returns
exactly `distance / (speed_a + speed_b)`; it is total (defined for all
rational inputs) with no other failure condition. -/
theorem calculate_ttc_spec (distance speed_a speed_b : ℚ) :
    (speed_a + speed_b ≤ 0 → calculate_ttc distance speed_a speed_b = TtcVal.inf) ∧
    (0 < speed_a + speed_b →
      calculate_ttc distance speed_a speed_b =
        TtcVal.fin (distance / (speed_a + speed_b))) := by
  refine ⟨fun h => ?_, fun h => ?_⟩ <;> unfold calculate_ttc
  · rw [if_pos h]
  · rw [if_neg (not_le.mpr h)]

theorem calculate_ttc_spec_witness :
    calculate_ttc 500 0 0 = TtcVal.inf ∧ calculate_ttc 100 20 20 = TtcVal.fin (5/2) := by
  constructor
  · exact (calculate_ttc_spec 500 0 0).1 (by norm_num)
  · rw [(calculate_ttc_spec 100 20 20).2 (by norm_num)]
    norm_num

/-- C2: for every ttc value passed to `calculate_avoidance_maneuver`,
`ttc > 10` gives status "safe", alert_level "none" and no maneuvers
list; `ttc <= 5` gives status "collision_imminent" and alert_level
"critical" (the `ttc = 5` boundary inclusive on the critical side); and
`5 < ttc <= 10` gives status "collision_imminent" and alert_level
"warning". -/
theorem calculate_avoidance_maneuver_levels (car_a car_b : Car) (ttc : TtcVal) :
    (TtcVal.gtB ttc critical_ttc_threshold = true →
      (calculate_avoidance_maneuver car_a car_b ttc).status = "safe" ∧
      (calculate_avoidance_maneuver car_a car_b ttc).alert_level = "none" ∧
      (calculate_avoidance_maneuver car_a car_b ttc).maneuvers = none) ∧
    (∀ q : ℚ, ttc = TtcVal.fin q → q ≤ 5 →
      (calculate_avoidance_maneuver car_a car_b ttc).status = "collision_imminent" ∧
      (calculate_avoidance_maneuver car_a car_b ttc).alert_level = "critical") ∧
    (∀ q : ℚ, ttc = TtcVal.fin q → 5 < q → q ≤ 10 →
      (calculate_avoidance_maneuver car_a car_b ttc).status = "collision_imminent" ∧
      (calculate_avoidance_maneuver car_a car_b ttc).alert_level = "warning") := by
  refine ⟨fun h => ?_, fun q hq h5 => ?_, fun q hq h5 h10 => ?_⟩
  · simp [calculate_avoidance_maneuver, h]
  · subst hq
    have hgt : TtcVal.gtB (TtcVal.fin q) critical_ttc_threshold = false := by
      simp [TtcVal.gtB, critical_ttc_threshold]; linarith
    have hle : TtcVal.leB (TtcVal.fin q) 5 = true := by
      simp [TtcVal.leB]; exact h5
    simp [calculate_avoidance_maneuver, hgt, hle]
  · subst hq
    have hgt : TtcVal.gtB (TtcVal.fin q) critical_ttc_threshold = false := by
      simp [TtcVal.gtB, critical_ttc_threshold]; linarith
    have hle : TtcVal.leB (TtcVal.fin q) 5 = false := by
      simp [TtcVal.leB]; linarith
    simp [calculate_avoidance_maneuver, hgt, hle]

theorem calculate_avoidance_maneuver_levels_witness :
    ((calculate_avoidance_maneuver ⟨30, 0⟩ ⟨10, 500⟩ (TtcVal.fin 20)).status = "safe" ∧
      (calculate_avoidance_maneuver ⟨30, 0⟩ ⟨10, 500⟩ (TtcVal.fin 20)).maneuvers = none) ∧
    (calculate_avoidance_maneuver ⟨30, 0⟩ ⟨10, 500⟩ (TtcVal.fin (5/2))).alert_level
      = "critical" ∧
    (calculate_avoidance_maneuver ⟨30, 0⟩ ⟨10, 500⟩ (TtcVal.fin 7)).alert_level
      = "warning" := by
  refine ⟨⟨?_, ?_⟩, ?_, ?_⟩
  · exact ((calculate_avoidance_maneuver_levels ⟨30, 0⟩ ⟨10, 500⟩ (TtcVal.fin 20)).1
      (by norm_num [TtcVal.gtB, critical_ttc_threshold])).1
  · exact ((calculate_avoidance_maneuver_levels ⟨30, 0⟩ ⟨10, 500⟩ (TtcVal.fin 20)).1
      (by norm_num [TtcVal.gtB, critical_ttc_threshold])).2.2
  · exact ((calculate_avoidance_maneuver_levels ⟨30, 0⟩ ⟨10, 500⟩
      (TtcVal.fin (5/2))).2.1 (5/2) rfl (by norm_num)).2
  · exact ((calculate_avoidance_maneuver_levels ⟨30, 0⟩ ⟨10, 500⟩
      (TtcVal.fin 7)).2.2 7 rfl (by norm_num) (by norm_num)).2

/-- C3: for every advice record and all values of the random draws (in
the ranges `random.uniform` and `random.random` guarantee), if the
status is "safe" then collision is avoided with `min_distance` in
`[50, 100]` and outcome "Safe passage"; otherwise (for an advice
carrying a ttc field) if the uniform draw is strictly below the success
probability then collision is avoided with `min_distance` in `[5, 20]`
and outcome "Close call - collision avoided", and if not,
`collision_avoided` is false, `min_distance = 0` and the outcome is
"COLLISION OCCURRED". -/
theorem simulate_avoidance_outcomes (car_a car_b : Car) (adv : Advice)
    (u_safe r u_close : ℚ)
    (hus : 50 ≤ u_safe ∧ u_safe ≤ 100) (hr : 0 ≤ r ∧ r < 1)
    (huc : 5 ≤ u_close ∧ u_close ≤ 20) :
    (adv.status = "safe" →
      simulate_avoidance car_a car_b adv u_safe r u_close =
        some { collision_avoided := true
               min_distance := u_safe
               outcome := "Safe passage" } ∧
      50 ≤ u_safe ∧ u_safe ≤ 100) ∧
    (adv.status ≠ "safe" → ∀ t : TtcVal, adv.ttc = some t →
      (r < successProbability t →
        simulate_avoidance car_a car_b adv u_safe r u_close =
          some { collision_avoided := true
                 min_distance := u_close
                 outcome := "Close call - collision avoided" } ∧
        5 ≤ u_close ∧ u_close ≤ 20) ∧
      (¬ r < successProbability t →
        simulate_avoidance car_a car_b adv u_safe r u_close =
          some { collision_avoided := false
                 min_distance := 0
                 outcome := "COLLISION OCCURRED" })) := by
  refine ⟨fun h => ⟨?_, hus⟩, fun h t ht => ⟨fun hlt => ⟨?_, huc⟩, fun hge => ?_⟩⟩
  · simp [simulate_avoidance, h]
  · simp [simulate_avoidance, h, ht, hlt]
  · simp [simulate_avoidance, h, ht, hge]

theorem simulate_avoidance_outcomes_witness :
    simulate_avoidance ⟨30, 0⟩ ⟨10, 500⟩
        ⟨"safe", "none", some "Maintain safe distance", none, none, none⟩
        75 (1/2) 12 =
      some ⟨true, 75, "Safe passage"⟩ ∧
    simulate_avoidance ⟨30, 0⟩ ⟨10, 500⟩
        ⟨"collision_imminent", "critical", none, some (TtcVal.fin (5/2)), none, some true⟩
        75 (1/2) 12 =
      some ⟨true, 12, "Close call - collision avoided"⟩ ∧
    simulate_avoidance ⟨30, 0⟩ ⟨10, 500⟩
        ⟨"collision_imminent", "critical", none, some (TtcVal.fin (5/2)), none, some true⟩
        75 (99/100) 12 =
      some ⟨false, 0, "COLLISION OCCURRED"⟩ := by
  refine ⟨?_, ?_, ?_⟩
  · exact ((simulate_avoidance_outcomes ⟨30, 0⟩ ⟨10, 500⟩
      ⟨"safe", "none", some "Maintain safe distance", none, none, none⟩
      75 (1/2) 12 (by norm_num) (by norm_num) (by norm_num)).1 rfl).1
  · exact (((simulate_avoidance_outcomes ⟨30, 0⟩ ⟨10, 500⟩
      ⟨"collision_imminent", "critical", none, some (TtcVal.fin (5/2)), none, some true⟩
      75 (1/2) 12 (by norm_num) (by norm_num) (by norm_num)).2 (by decide)
      (TtcVal.fin (5/2)) rfl).1 (by norm_num [successProbability])).1
  · exact ((simulate_avoidance_outcomes ⟨30, 0⟩ ⟨10, 500⟩
      ⟨"collision_imminent", "critical", none, some (TtcVal.fin (5/2)), none, some true⟩
      75 (99/100) 12 (by norm_num) (by norm_num) (by norm_num)).2 (by decide)
      (TtcVal.fin (5/2)) rfl).2 (by norm_num [successProbability])

/-- C4: in the collision_imminent branch the success probability is
`min(0.95, 0.7 + ttc/20)`, collision is avoided iff the uniform draw is
strictly less than it, the probability is monotone non-decreasing in
ttc and capped at 0.95, and it equals 0.95 at `ttc = 10`. -/
theorem success_probability_spec :
    (∀ q : ℚ, successProbability (TtcVal.fin q) = min (95/100) (7/10 + q / 20)) ∧
    (∀ q₁ q₂ : ℚ, q₁ ≤ q₂ →
      successProbability (TtcVal.fin q₁) ≤ successProbability (TtcVal.fin q₂)) ∧
    (∀ q : ℚ, successProbability (TtcVal.fin q) ≤ 95/100) ∧
    successProbability (TtcVal.fin 10) = 95/100 ∧
    (∀ (car_a car_b : Car) (adv : Advice) (u_safe r u_close : ℚ) (t : TtcVal),
      adv.status ≠ "safe" → adv.ttc = some t →
      ∃ res : SimResult,
        simulate_avoidance car_a car_b adv u_safe r u_close = some res ∧
        (res.collision_avoided = true ↔ r < successProbability t)) := by
  refine ⟨fun q => rfl, fun q₁ q₂ h => ?_, fun q => min_le_left _ _, ?_, ?_⟩
  · simp only [successProbability]
    exact min_le_min le_rfl (by linarith)
  · norm_num [successProbability, min_def]
  · intro ca cb adv us r uc t h ht
    by_cases hlt : r < successProbability t
    · refine ⟨⟨true, uc, "Close call - collision avoided"⟩, ?_, ?_⟩
      · simp [simulate_avoidance, h, ht, hlt]
      · simp [hlt]
    · refine ⟨⟨false, 0, "COLLISION OCCURRED"⟩, ?_, ?_⟩
      · simp [simulate_avoidance, h, ht, hlt]
      · simp [hlt]

theorem success_probability_spec_witness :
    successProbability (TtcVal.fin 2) ≤ successProbability (TtcVal.fin 4) ∧
    ∃ res : SimResult,
      simulate_avoidance ⟨30, 0⟩ ⟨10, 500⟩
          ⟨"collision_imminent", "critical", none, some (TtcVal.fin 3), none, some true⟩
          75 (1/2) 12 = some res ∧
      (res.collision_avoided = true ↔ (1/2 : ℚ) < successProbability (TtcVal.fin 3)) := by
  exact ⟨success_probability_spec.2.1 2 4 (by norm_num),
    success_probability_spec.2.2.2.2 ⟨30, 0⟩ ⟨10, 500⟩
      ⟨"collision_imminent", "critical", none, some (TtcVal.fin 3), none, some true⟩
      75 (1/2) 12 (TtcVal.fin 3) (by decide) rfl⟩

/-- C5: every advice with status "collision_imminent" carries at least 3
maneuver instructions in fixed order: the global instruction "Both
vehicles reduce speed immediately" first, then the two vehicle-specific
instructions. -/
theorem collision_imminent_maneuvers (car_a car_b : Car) (ttc : TtcVal)
    (h : (calculate_avoidance_maneuver car_a car_b ttc).status = "collision_imminent") :
    ∃ m₁ m₂ : String,
      (calculate_avoidance_maneuver car_a car_b ttc).maneuvers =
        some ["Both vehicles reduce speed immediately", m₁, m₂] ∧
      3 ≤ (["Both vehicles reduce speed immediately", m₁, m₂] : List String).length ∧
      ((m₁ = "Vehicle A: Steer right onto shoulder" ∧
        m₂ = "Vehicle B: Maintain course, prepare to brake") ∨
       (m₁ = "Vehicle B: Steer left onto shoulder" ∧
        m₂ = "Vehicle A: Maintain course, prepare to brake")) := by
  rcases Bool.eq_false_or_eq_true (TtcVal.gtB ttc critical_ttc_threshold) with hgt | hgt
  · simp [calculate_avoidance_maneuver, hgt] at h
  · by_cases hsp : car_a.speed ≥ car_b.speed
    · exact ⟨"Vehicle A: Steer right onto shoulder",
        "Vehicle B: Maintain course, prepare to brake",
        by simp [calculate_avoidance_maneuver, hgt, hsp], by norm_num, Or.inl ⟨rfl, rfl⟩⟩
    · exact ⟨"Vehicle B: Steer left onto shoulder",
        "Vehicle A: Maintain course, prepare to brake",
        by simp [calculate_avoidance_maneuver, hgt, hsp], by norm_num, Or.inr ⟨rfl, rfl⟩⟩

theorem collision_imminent_maneuvers_witness :
    ∃ m₁ m₂ : String,
      (calculate_avoidance_maneuver ⟨30, 0⟩ ⟨10, 500⟩ (TtcVal.fin 2)).maneuvers =
        some ["Both vehicles reduce speed immediately", m₁, m₂] ∧
      3 ≤ (["Both vehicles reduce speed immediately", m₁, m₂] : List String).length ∧
      ((m₁ = "Vehicle A: Steer right onto shoulder" ∧
        m₂ = "Vehicle B: Maintain course, prepare to brake") ∨
       (m₁ = "Vehicle B: Steer left onto shoulder" ∧
        m₂ = "Vehicle A: Maintain course, prepare to brake")) :=
  collision_imminent_maneuvers ⟨30, 0⟩ ⟨10, 500⟩ (TtcVal.fin 2)
    (by norm_num [calculate_avoidance_maneuver, TtcVal.gtB, critical_ttc_threshold])

/-- C6: in the collision_imminent branch, when `speed_a >= speed_b`
(ties favoring vehicle A) the maneuvers instruct vehicle A to steer
right onto the shoulder and vehicle B to hold course; when
`speed_b > speed_a` they instruct vehicle B to steer left onto the
shoulder and vehicle A to hold course. -/
theorem maneuver_tie_break (car_a car_b : Car) (ttc : TtcVal)
    (h : TtcVal.gtB ttc critical_ttc_threshold = false) :
    (car_a.speed ≥ car_b.speed →
      (calculate_avoidance_maneuver car_a car_b ttc).maneuvers =
        some ["Both vehicles reduce speed immediately",
              "Vehicle A: Steer right onto shoulder",
              "Vehicle B: Maintain course, prepare to brake"]) ∧
    (car_b.speed > car_a.speed →
      (calculate_avoidance_maneuver car_a car_b ttc).maneuvers =
        some ["Both vehicles reduce speed immediately",
              "Vehicle B: Steer left onto shoulder",
              "Vehicle A: Maintain course, prepare to brake"]) := by
  constructor
  · intro hsp
    simp [calculate_avoidance_maneuver, h, hsp]
  · intro hsp
    simp [calculate_avoidance_maneuver, h, not_le.mpr hsp]

theorem maneuver_tie_break_witness :
    (calculate_avoidance_maneuver ⟨30, 0⟩ ⟨10, 500⟩ (TtcVal.fin 2)).maneuvers =
      some ["Both vehicles reduce speed immediately",
            "Vehicle A: Steer right onto shoulder",
            "Vehicle B: Maintain course, prepare to brake"] ∧
    (calculate_avoidance_maneuver ⟨10, 0⟩ ⟨15, 500⟩ (TtcVal.fin 2)).maneuvers =
      some ["Both vehicles reduce speed immediately",
            "Vehicle B: Steer left onto shoulder",
            "Vehicle A: Maintain course, prepare to brake"] := by
  constructor
  · exact (maneuver_tie_break ⟨30, 0⟩ ⟨10, 500⟩ (TtcVal.fin 2)
      (by norm_num [TtcVal.gtB, critical_ttc_threshold])).1 (by norm_num)
  · exact (maneuver_tie_break ⟨10, 0⟩ ⟨15, 500⟩ (TtcVal.fin 2)
      (by norm_num [TtcVal.gtB, critical_ttc_threshold])).2 (by norm_num)

/-- C7 counterexample: the claim is false — there is no input with
non-negative distance (as produced by the endpoint via the absolute
value) and a negative speed on which `calculate_ttc` returns a strictly
negative ttc: when the speed sum is non-positive the infinity branch
fires, and otherwise the quotient of a non-negative distance by a
positive sum is non-negative. -/
theorem negative_ttc_impossible :
    ¬ ∃ (d a b : ℚ), 0 ≤ d ∧ (a < 0 ∨ b < 0) ∧
      ∃ q : ℚ, calculate_ttc d a b = TtcVal.fin q ∧ q < 0 := by
  rintro ⟨d, a, b, hd, -, q, hq, hneg⟩
  unfold calculate_ttc at hq
  by_cases h : a + b ≤ 0
  · rw [if_pos h] at hq
    exact absurd hq (by simp)
  · rw [if_neg h] at hq
    injection hq with h2
    have hpos : 0 < a + b := not_le.mp h
    have hnn : 0 ≤ d / (a + b) := div_nonneg hd hpos.le
    rw [h2] at hnn
    linarith

/-- C7 amended: for every input with non-negative distance — including
inputs with a negative speed — `calculate_ttc` never returns a strictly
negative ttc; instead, a negative speed whose sum with the other speed
is still positive suppresses the infinity branch and yields an ordinary
finite ttc, e.g. distance 500, speed_a 30, speed_b −20 give ttc 50. -/
theorem calculate_ttc_nonneg (d a b : ℚ) (hd : 0 ≤ d) :
    (∀ q : ℚ, calculate_ttc d a b = TtcVal.fin q → 0 ≤ q) ∧
    calculate_ttc 500 30 (-20) = TtcVal.fin 50 := by
  constructor
  · intro q hq
    unfold calculate_ttc at hq
    by_cases h : a + b ≤ 0
    · rw [if_pos h] at hq
      exact absurd hq (by simp)
    · rw [if_neg h] at hq
      injection hq with h2
      have hpos : 0 < a + b := not_le.mp h
      have hnn : 0 ≤ d / (a + b) := div_nonneg hd hpos.le
      rw [h2] at hnn
      exact hnn
  · unfold calculate_ttc
    norm_num

theorem calculate_ttc_nonneg_witness :
    (0 : ℚ) ≤ 50 ∧ calculate_ttc 500 30 (-20) = TtcVal.fin 50 := by
  have h := calculate_ttc_nonneg 500 30 (-20) (by norm_num)
  exact ⟨h.1 50 h.2, h.2⟩

/-- C8: for all draws of `random.uniform(60, 120)`, the returned
`speed_a` and `speed_b` lie in `[60, 120]` (and equal the draws rounded
to 1 decimal place), and `speed_a_ms`, `speed_b_ms` equal the same
draws divided by 3.6 and rounded to 1 decimal place. -/
theorem generate_random_scenario_spec (u_a u_b : ℚ)
    (ha : 60 ≤ u_a ∧ u_a ≤ 120) (hb : 60 ≤ u_b ∧ u_b ≤ 120) :
    (60 ≤ (generate_random_scenario u_a u_b).speed_a ∧
      (generate_random_scenario u_a u_b).speed_a ≤ 120) ∧
    (60 ≤ (generate_random_scenario u_a u_b).speed_b ∧
      (generate_random_scenario u_a u_b).speed_b ≤ 120) ∧
    (generate_random_scenario u_a u_b).speed_a = roundTo 1 u_a ∧
    (generate_random_scenario u_a u_b).speed_b = roundTo 1 u_b ∧
    (generate_random_scenario u_a u_b).speed_a_ms = roundTo 1 (u_a / (18/5)) ∧
    (generate_random_scenario u_a u_b).speed_b_ms = roundTo 1 (u_b / (18/5)) := by
  have ea : (generate_random_scenario u_a u_b).speed_a = roundTo 1 u_a := rfl
  have eb : (generate_random_scenario u_a u_b).speed_b = roundTo 1 u_b := rfl
  have h1 : ((60 : ℤ) : ℚ) ≤ roundTo 1 u_a := le_roundTo_one (by push_cast; linarith [ha.1])
  have h2 : roundTo 1 u_a ≤ ((120 : ℤ) : ℚ) := roundTo_one_le (by push_cast; linarith [ha.2])
  have h3 : ((60 : ℤ) : ℚ) ≤ roundTo 1 u_b := le_roundTo_one (by push_cast; linarith [hb.1])
  have h4 : roundTo 1 u_b ≤ ((120 : ℤ) : ℚ) := roundTo_one_le (by push_cast; linarith [hb.2])
  refine ⟨⟨?_, ?_⟩, ⟨?_, ?_⟩, rfl, rfl, rfl, rfl⟩
  · rw [ea]; exact_mod_cast h1
  · rw [ea]; exact_mod_cast h2
  · rw [eb]; exact_mod_cast h3
  · rw [eb]; exact_mod_cast h4

theorem generate_random_scenario_spec_witness :
    (60 ≤ (generate_random_scenario 100 (2231/20)).speed_a ∧
      (generate_random_scenario 100 (2231/20)).speed_a ≤ 120) ∧
    (60 ≤ (generate_random_scenario 100 (2231/20)).speed_b ∧
      (generate_random_scenario 100 (2231/20)).speed_b ≤ 120) ∧
    (generate_random_scenario 100 (2231/20)).speed_a = roundTo 1 100 ∧
    (generate_random_scenario 100 (2231/20)).speed_b = roundTo 1 (2231/20) ∧
    (generate_random_scenario 100 (2231/20)).speed_a_ms = roundTo 1 (100 / (18/5)) ∧
    (generate_random_scenario 100 (2231/20)).speed_b_ms = roundTo 1 ((2231/20) / (18/5)) :=
  generate_random_scenario_spec 100 (2231/20) (by norm_num) (by norm_num)

/-- C9: `calculate_ttc` and `calculate_avoidance_maneuver` are pure and
deterministic — two calls with identical inputs yield identical
outputs; in this embedding both are functions of their arguments alone,
with no randomness or hidden-state parameter. -/
theorem core_functions_deterministic (d₁ d₂ a₁ a₂ b₁ b₂ : ℚ)
    (ca₁ ca₂ cb₁ cb₂ : Car) (t₁ t₂ : TtcVal)
    (hd : d₁ = d₂) (ha : a₁ = a₂) (hb : b₁ = b₂)
    (hca : ca₁ = ca₂) (hcb : cb₁ = cb₂) (ht : t₁ = t₂) :
    calculate_ttc d₁ a₁ b₁ = calculate_ttc d₂ a₂ b₂ ∧
    calculate_avoidance_maneuver ca₁ cb₁ t₁ = calculate_avoidance_maneuver ca₂ cb₂ t₂ := by
  subst hd; subst ha; subst hb; subst hca; subst hcb; subst ht
  exact ⟨rfl, rfl⟩

theorem core_functions_deterministic_witness :
    calculate_ttc 100 20 20 = calculate_ttc 100 20 20 ∧
    calculate_avoidance_maneuver ⟨30, 0⟩ ⟨10, 500⟩ (TtcVal.fin 5) =
      calculate_avoidance_maneuver ⟨30, 0⟩ ⟨10, 500⟩ (TtcVal.fin 5) :=
  core_functions_deterministic 100 100 20 20 20 20 ⟨30, 0⟩ ⟨30, 0⟩ ⟨10, 500⟩ ⟨10, 500⟩
    (TtcVal.fin 5) (TtcVal.fin 5) rfl rfl rfl rfl rfl rfl

/-- C10: composed as in the endpoint, the advice stores the ttc rounded
to 2 decimal places, and the simulation computes the success
probability from that stored, rounded value: for every raw
`ttc <= 10`, the probability used is `min(0.95, 0.7 + round(ttc, 2)/20)`. -/
theorem pipeline_uses_rounded_ttc (car_a car_b : Car) (q : ℚ) (h : q ≤ 10)
    (u_safe r u_close : ℚ) :
    (calculate_avoidance_maneuver car_a car_b (TtcVal.fin q)).ttc =
      some (TtcVal.fin (roundTo 2 q)) ∧
    ∃ res : SimResult,
      simulate_avoidance car_a car_b
        (calculate_avoidance_maneuver car_a car_b (TtcVal.fin q)) u_safe r u_close =
          some res ∧
      (res.collision_avoided = true ↔ r < min (95/100) (7/10 + roundTo 2 q / 20)) := by
  have hgt : TtcVal.gtB (TtcVal.fin q) critical_ttc_threshold = false := by
    simp [TtcVal.gtB, critical_ttc_threshold]; linarith
  have httc : (calculate_avoidance_maneuver car_a car_b (TtcVal.fin q)).ttc =
      some (TtcVal.fin (roundTo 2 q)) := by
    simp [calculate_avoidance_maneuver, hgt, TtcVal.round2]
  have hst : (calculate_avoidance_maneuver car_a car_b (TtcVal.fin q)).status =
      "collision_imminent" := by
    simp [calculate_avoidance_maneuver, hgt]
  refine ⟨httc, ?_⟩
  by_cases hlt : r < min (95/100 : ℚ) (7/10 + roundTo 2 q / 20)
  · refine ⟨⟨true, u_close, "Close call - collision avoided"⟩, ?_,
      ⟨fun _ => hlt, fun _ => rfl⟩⟩
    simp [simulate_avoidance, hst, httc, successProbability, hlt]
  · refine ⟨⟨false, 0, "COLLISION OCCURRED"⟩, ?_,
      ⟨fun hcontra => absurd hcontra Bool.false_ne_true, fun hp => absurd hp hlt⟩⟩
    simp [simulate_avoidance, hst, httc, successProbability, hlt]

theorem pipeline_uses_rounded_ttc_witness :
    (calculate_avoidance_maneuver ⟨30, 0⟩ ⟨10, 500⟩ (TtcVal.fin (10/3))).ttc =
      some (TtcVal.fin (roundTo 2 (10/3))) ∧
    ∃ res : SimResult,
      simulate_avoidance ⟨30, 0⟩ ⟨10, 500⟩
        (calculate_avoidance_maneuver ⟨30, 0⟩ ⟨10, 500⟩ (TtcVal.fin (10/3))) 75 (1/2) 12 =
          some res ∧
      (res.collision_avoided = true ↔
        (1/2 : ℚ) < min (95/100) (7/10 + roundTo 2 (10/3) / 20)) :=
  pipeline_uses_rounded_ttc ⟨30, 0⟩ ⟨10, 500⟩ (10/3) (by norm_num) 75 (1/2) 12

end CollisionAvoidance
